import Mathlib

/-!
Verification development for the material-tensor engine in
`src/seidart/routines/materials.py`.

The Python functions are shallowly embedded over `ℝ` (the source computes with
IEEE doubles; all claims here are exact real-arithmetic statements about the
formulas the source evaluates).  Matrices are `Matrix (Fin n) (Fin n) ℝ` (or
`ℂ` where the source uses complex dtype).  `np.linalg.inv` is `Matrix.inv`;
claims that need a genuine inverse carry an `IsUnit det` hypothesis, matching
the fact that the source would raise on a singular matrix.  Fallible code
(dictionary lookup, file parsing, the branch of `snow_conductivity` that
references undefined names) returns `Option`, with `none` for the raised
exception.
-/

noncomputable section

open Matrix

/-- Global constant `eps0` of materials.py (vacuum permittivity). -/
def eps0 : ℝ := 8.85418782e-12

/-- Water density from the Kell equation (`rho_water_correction`); the source
default argument is temperature `0.0`. -/
def rho_water_correction (temperature : ℝ) : ℝ :=
  (999.83952 + 16.945176 * temperature -
      7.9870401e-3 * temperature ^ 2 -
      46.170461e-6 * temperature ^ 3 +
      105.56302e-9 * temperature ^ 4 -
      280.54253e-12 * temperature ^ 5) /
    (1 + 16.897850e-3 * temperature)

/-- Porewater/phase correction (`porewater_correction`): returns the corrected
bulk density together with the air and water mass contributions.  The two
`rho_water` reassignments of the source are the `max`/`min` clamps. -/
def porewater_correction (temperature density porosity liquid_water_content : ℝ) :
    ℝ × ℝ × ℝ :=
  let rho_air := 0.02897 / (8.2057338e-5 * (273 + temperature))
  let rho_water := rho_water_correction temperature
  let rho_water_lo := max rho_water 950
  let rho_water_hi := min rho_water_lo (rho_water_correction 0)
  let grams_air := (1 - liquid_water_content / 100) * rho_air
  let grams_water := (liquid_water_content / 100) * rho_water_hi
  let rho_wc := grams_air + grams_water
  ((1 - porosity / 100) * density + (porosity / 100) * rho_wc, grams_air, grams_water)

/-- Pressure-interpolated P-wave velocity of `isotropic_stiffness_tensor`:
`cp * arctan(pressure) + Vp[0]` with `cp = 2*(Vp[1]-Vp[0])/pi`. -/
def pwave_velocity (pressure : ℝ) (material_limits : Fin 8 → ℝ) : ℝ :=
  2 * (material_limits 1 - material_limits 0) / Real.pi * Real.arctan pressure +
    material_limits 0

/-- Pressure-interpolated S-wave velocity of `isotropic_stiffness_tensor`. -/
def swave_velocity (pressure : ℝ) (material_limits : Fin 8 → ℝ) : ℝ :=
  2 * (material_limits 3 - material_limits 2) / Real.pi * Real.arctan pressure +
    material_limits 2

/-- Lame parameter `mu = density * svelocity**2` of `isotropic_stiffness_tensor`. -/
def lame_mu (pressure density : ℝ) (material_limits : Fin 8 → ℝ) : ℝ :=
  density * (swave_velocity pressure material_limits) ^ 2

/-- Lame parameter `lam = density * pvelocity**2 - 2*mu` of
`isotropic_stiffness_tensor`. -/
def lame_lambda (pressure density : ℝ) (material_limits : Fin 8 → ℝ) : ℝ :=
  density * (pwave_velocity pressure material_limits) ^ 2 -
    2 * lame_mu pressure density material_limits

/-- Isotropic 6x6 stiffness tensor (`isotropic_stiffness_tensor`).  The matrix
is the end state of the source's fill sequence: `C[0:3,0:3] = lam`, then
`fill_diagonal` adds `mu` to every diagonal entry, then `C[0,0] = lam + 2*mu`
and `C[1,1] += mu`, `C[2,2] += mu`; so the diagonal is
`(lam+2mu, lam+2mu, lam+2mu, mu, mu, mu)` with `lam` on the upper-left
off-diagonal block and zeros elsewhere. -/
def isotropic_stiffness_tensor (pressure density : ℝ) (material_limits : Fin 8 → ℝ) :
    Matrix (Fin 6) (Fin 6) ℝ :=
  let lam := lame_lambda pressure density material_limits
  let mu := lame_mu pressure density material_limits
  !![lam + 2 * mu, lam, lam, 0, 0, 0;
     lam, lam + 2 * mu, lam, 0, 0, 0;
     lam, lam, lam + 2 * mu, 0, 0, 0;
     0, 0, 0, mu, 0, 0;
     0, 0, 0, 0, mu, 0;
     0, 0, 0, 0, 0, mu]

/-- The `isotropic_materials` dictionary: material name to the 8-tuple
`(Vp_min, Vp_max, Vs_min, Vs_max, Perm_min, Perm_max, Cond_min, Cond_max)`.
An unregistered name raises `KeyError` in the source, modelled by `none`. -/
def isotropic_materials (name : String) : Option (Fin 8 → ℝ) :=
  if name = "air" then some ![343, 343, 0.0, 0.0, 1.0, 1.0, 1.0e-16, 1.0e-15]
  else if name = "ice1h" then some ![3400, 3800, 1700, 1900, 3.1, 3.22, 1.0e-7, 1.0e-6]
  else if name = "snow" then some ![100, 2000, 50, 500, 1.0, 70, 1.0e-9, 1.0e-4]
  else if name = "soil" then some ![300, 700, 100, 300, 3.9, 29.4, 1.0e-2, 1.0e-1]
  else if name = "water" then some ![1450, 1500, 0, 0, 80.36, 80.36, 5.5e-6, 5.0e-2]
  else if name = "oil" then some ![1200, 1250, 0, 0, 2.07, 2.14, 5.7e-8, 2.1e-7]
  else if name = "dry_sand" then some ![400, 1200, 100, 500, 2.9, 4.7, 1.0e-3, 1.0e-3]
  else if name = "wet_sand" then some ![1500, 2000, 400, 600, 2.9, 105, 2.5e-4, 1.2e-3]
  else if name = "granite" then some ![4500, 6000, 2500, 3300, 4.8, 18.9, 4.0e-5, 2.5e-4]
  else if name = "gneiss" then some ![4400, 5200, 2700, 3200, 8.5, 8.5, 2.5e-4, 2.5e-3]
  else if name = "basalt" then some ![5000, 6000, 2800, 3400, 12, 12, 1.0e-6, 1.0e-4]
  else if name = "limestone" then some ![3500, 6000, 2000, 3300, 7.8, 8.5, 2.5e-4, 1.0e-3]
  else if name = "anhydrite" then some ![4000, 5500, 2200, 3100, 5, 11.5, 1.0e-6, 1.0e-5]
  else if name = "coal" then some ![2200, 2700, 1000, 1400, 5.6, 6.3, 1.0e-8, 1.0e-3]
  else if name = "salt" then some ![4500, 5500, 2500, 3100, 5.6, 5.6, 1.0e-7, 1.0e2]
  else none

/-- The numpy idiom `np.eye(3,3) * x`: a diagonal 3x3 matrix with `x` on the
diagonal. -/
def eye_mul (x : ℝ) : Matrix (Fin 3) (Fin 3) ℝ :=
  Matrix.diagonal fun _ => x

/-- Isotropic permittivity/conductivity pair (`isotropic_permittivity_tensor`).
The branch order and the string literals compared against `material_name` are
exactly those of the source; note the source's second branch tests the literal
"dry sand" (with a space) while the catalog key is "dry_sand". -/
def isotropic_permittivity_tensor (temperature porosity water_content : ℝ)
    (material_name : String) :
    Option (Matrix (Fin 3) (Fin 3) ℝ × Matrix (Fin 3) (Fin 3) ℝ) :=
  (isotropic_materials material_name).map fun material_limits =>
    let perm0 := material_limits 4
    let perm1 := material_limits 5
    let cond0 := material_limits 6
    let cond1 := material_limits 7
    if material_name = "ice1h" then
      let perm0i := 3.1884 + 9.1e-4 * temperature
      let perm_coef := (perm1 - perm0i) / 85
      let cond_coef := (cond1 - cond0) / 85
      (eye_mul (perm_coef * porosity + perm0i), eye_mul (cond_coef * porosity + cond0))
    else if material_name = "soil" ∨ material_name = "dry sand" then
      let perm_coef := (perm1 - perm0) / 55
      let cond_coef := (cond1 - cond0) / 55
      (eye_mul (perm_coef * porosity + perm0), eye_mul (cond_coef * porosity + cond0))
    else if material_name = "salt" then
      let cond_coef := (cond1 - cond0) / 20
      (eye_mul perm0, eye_mul (cond_coef * water_content + cond0))
    else if material_name = "water" ∨ material_name = "oil" then
      (eye_mul (material_limits 4), eye_mul (material_limits 6))
    else
      let perm_coef := (perm1 - perm0) / 3
      let cond_coef := (cond1 - cond0) / 3
      (eye_mul (perm_coef * porosity + perm0), eye_mul (cond_coef * porosity + cond0))

/-- Quadratic polynomial for `C[0,0]` in `ice_stiffness` (units 1e8 Pa). -/
def ice_c11 (t p : ℝ) : ℝ :=
  136.813 - 0.28940 * t - 0.00178270 * t ^ 2 + 4.6648 * p - 0.13501 * p ^ 2

/-- Quadratic polynomial for `C[0,1]` in `ice_stiffness`. -/
def ice_c12 (t p : ℝ) : ℝ :=
  69.4200 - 0.14673 * t - 0.00090362 * t ^ 2 + 5.0743 * p + 0.085917 * p ^ 2

/-- Quadratic polynomial for `C[0,2]` in `ice_stiffness`. -/
def ice_c13 (t p : ℝ) : ℝ :=
  56.3410 - 0.11916 * t - 0.00073120 * t ^ 2 + 6.4189 * p - 0.52490 * p ^ 2

/-- Quadratic polynomial for `C[2,2]` in `ice_stiffness`. -/
def ice_c33 (t p : ℝ) : ℝ :=
  147.607 - 0.31129 * t - 0.0018948 * t ^ 2 + 4.7546 * p - 0.11307 * p ^ 2

/-- Quadratic polynomial for `C[3,3]` in `ice_stiffness`. -/
def ice_c44 (t p : ℝ) : ℝ :=
  29.7260 - 0.062874 * t - 0.00038956 * t ^ 2 + 0.5662 * p + 0.036917 * p ^ 2

/-- Single-crystal ice stiffness tensor (`ice_stiffness`): end state of the
source's assignments, scaled by `1e8`.  The source sets `C[1,1] = C[0,0]`,
`C[1,0] = C[0,1]`, `C[2,0] = C[0,2]`, `C[1,2] = C[0,2]`, `C[2,1] = C[0,2]`
(the commented-out line would have been `C[2,1] = C[1,2]`, the same value),
`C[4,4] = C[3,3]` and `C[5,5] = (C[0,0]-C[0,1])/2`; unassigned entries stay 0. -/
def ice_stiffness (temperature pressure : ℝ) : Matrix (Fin 6) (Fin 6) ℝ :=
  (1e8 : ℝ) •
    !![ice_c11 temperature pressure, ice_c12 temperature pressure,
         ice_c13 temperature pressure, 0, 0, 0;
       ice_c12 temperature pressure, ice_c11 temperature pressure,
         ice_c13 temperature pressure, 0, 0, 0;
       ice_c13 temperature pressure, ice_c13 temperature pressure,
         ice_c33 temperature pressure, 0, 0, 0;
       0, 0, 0, ice_c44 temperature pressure, 0, 0;
       0, 0, 0, 0, ice_c44 temperature pressure, 0;
       0, 0, 0, 0, 0,
         (ice_c11 temperature pressure - ice_c12 temperature pressure) / 2]

/-- Fujita complex-permittivity fit (`fujita_complex_permittivity`):
`A(T)/f + B(T) * f^C(T)` with `T` in Kelvin and `f` in GHz.  The source obtains
`A`, `B`, `C` by scipy cubic-spline interpolation of 9 tabulated breakpoints;
those interpolants are taken here as function parameters `Aint Bint Cint`, so
every statement below holds for the actual splines. -/
def fujita_complex_permittivity (Aint Bint Cint : ℝ → ℝ) (temperature frequency : ℝ) : ℝ :=
  let temperatureK := temperature + 273
  let frequencyGHz := frequency / 1e9
  Aint temperatureK / frequencyGHz + Bint temperatureK * frequencyGHz ^ Cint temperatureK

/-- Complex ice permittivity tensor (`ice_permittivity`).  For `method`
different from "kovacs" the scalar is `complex(3.1884 + 9.1e-4*T, fujita(...))`,
and when `method = "fujita"` the `[2,2]` entry additionally carries the offset
`dP = 0.0256 + 3.57e-5 * 6.0e-6 * T`.  The matrix is `np.eye(3,3) * perm` with
that one diagonal entry overwritten. -/
def ice_permittivity (Aint Bint Cint : ℝ → ℝ) (temperature density : ℝ)
    (center_frequency : ℝ) (method : String) : Matrix (Fin 3) (Fin 3) ℂ :=
  let perm : ℂ :=
    if method = "kovacs" then Complex.ofReal ((1 + 0.845 * density) ^ 2)
    else
      ⟨3.1884 + 9.1e-4 * temperature,
        fujita_complex_permittivity Aint Bint Cint temperature center_frequency⟩
  let dP : ℝ := 0.0256 + 3.57e-5 * 6.0e-6 * temperature
  Matrix.of fun i j =>
    if i = j then (if method = "fujita" ∧ i = 2 then perm + (dP : ℂ) else perm) else 0

/-- Complex snow permittivity (`snow_permittivity`): returns the diagonal
complex tensor and the corrected dry density `rho_d` (in g/cm3).  The four
real-part formulas and the two imaginary-part branches follow the source; the
dry branch averages the imaginary diagonal of `ice_permittivity` at 917 kg/m3
(`np.diag(...).mean()`). -/
def snow_permittivity (Aint Bint Cint : ℝ → ℝ)
    (density temperature lwc porosity center_frequency : ℝ) (method : String) :
    Matrix (Fin 3) (Fin 3) ℂ × ℝ :=
  let pc := porewater_correction temperature density porosity lwc
  let grams_water := pc.2.2
  let lwc2 := grams_water / 1000
  let rho_d := pc.1 / 1000
  let tK := temperature + 273.15
  let perm : ℝ :=
    if method = "shivola-tiuri" then
      8.8 * lwc2 + 70.4 * lwc2 ^ 2 + 1 + 1.17 * rho_d + 0.7 * rho_d ^ 2
    else if method = "wise" then
      1 + 1.202 * rho_d + 0.983 * rho_d ^ 2 + 21.3 * lwc2
    else if method = "jones" then
      78.51 * (1 - 4.579e-3 * (tK - 298) + 1.19e-5 * (tK - 298) ^ 2 -
        2.8e-8 * (tK - 298) ^ 3)
    else 77.66 - 103.3 * (1 - 300 / tK)
  let complex_permittivity : ℝ :=
    if 0 < lwc2 then 0.8 * lwc2 + 0.72 * lwc2 ^ 2
    else
      let eps_i :=
        (∑ i : Fin 3,
          ((ice_permittivity Aint Bint Cint temperature 917 center_frequency "fujita") i i).im) / 3
      eps_i * (0.52 * rho_d + 0.62 * rho_d ^ 2)
  (Matrix.of fun i j => if i = j then (⟨perm, complex_permittivity⟩ : ℂ) else 0, rho_d)

/-- Snow conductivity (`snow_conductivity`).  When a complex permittivity
tensor is supplied (`np.iscomplexobj` true) the source computes
`sigma = permittivity.imag * frequency * eps0` and returns
`np.eye(3,3) * sigma` (entrywise product, so the diagonal of `sigma` masked to
a diagonal matrix).  In the other branch the source calls
`porewater_correction(temperature, density, porosity, lwc)` where
`temperature`, `density` and `porosity` are names that do not exist in the
function's scope, so every such call raises `NameError`; that branch is
therefore `none`. -/
def snow_conductivity (lwc : Option ℝ) (permittivity : Option (Matrix (Fin 3) (Fin 3) ℂ))
    (frequency : ℝ) : Option (Matrix (Fin 3) (Fin 3) ℝ) :=
  match permittivity with
  | some P =>
      some (Matrix.of fun i j =>
        (if i = j then (1 : ℝ) else 0) * ((P i j).im * frequency * eps0))
  | none => none

/-- Euler-angle file reader (`read_ang`), modelled from the numeric array that
`pd.read_table` produces: a rectangular table of floats with `none` for NaN.
The source trims to the first 3 columns only when `euler.shape[0] > 3` (the
number of ROWS), flattens row-major, drops NaNs, and reshapes to
`(m, len // m)`; numpy raises `ValueError` when `m * (len // m) != len`, and
`m = 0` divides by zero — both modelled as `none`. -/
def read_ang (euler : List (List (Option ℝ))) : Option (List (List ℝ)) :=
  let table := if 3 < euler.length then euler.map (fun r => r.take 3) else euler
  let m := table.length
  let flat := table.flatten.filterMap id
  if m = 0 then none
  else
    let q := flat.length / m
    if flat.length = m * q then
      some ((List.range m).map fun i => (flat.drop (i * q)).take q)
    else none

/-- Euler z-x-z rotation matrix (`rotator_zxz`): `R = D * (C * B)` with the
three literal factor matrices of the source. -/
def rotator_zxz (eul : Fin 3 → ℝ) : Matrix (Fin 3) (Fin 3) ℝ :=
  let d : Matrix (Fin 3) (Fin 3) ℝ :=
    !![Real.cos (eul 0), -Real.sin (eul 0), 0;
       Real.sin (eul 0), Real.cos (eul 0), 0;
       0, 0, 1]
  let c : Matrix (Fin 3) (Fin 3) ℝ :=
    !![1, 0, 0;
       0, Real.cos (eul 1), -Real.sin (eul 1);
       0, Real.sin (eul 1), Real.cos (eul 1)]
  let b : Matrix (Fin 3) (Fin 3) ℝ :=
    !![Real.cos (eul 2), -Real.sin (eul 2), 0;
       Real.sin (eul 2), Real.cos (eul 2), 0;
       0, 0, 1]
  d * (c * b)

/-- Bond 6x6 transformation matrix (`bond`) induced by a 3x3 rotation. -/
def bond (R : Matrix (Fin 3) (Fin 3) ℝ) : Matrix (Fin 6) (Fin 6) ℝ :=
  !![R 0 0 ^ 2, R 0 1 ^ 2, R 0 2 ^ 2,
       2 * R 0 1 * R 0 2, 2 * R 0 2 * R 0 0, 2 * R 0 0 * R 0 1;
     R 1 0 ^ 2, R 1 1 ^ 2, R 1 2 ^ 2,
       2 * R 1 1 * R 1 2, 2 * R 1 2 * R 1 0, 2 * R 1 0 * R 1 1;
     R 2 0 ^ 2, R 2 1 ^ 2, R 2 2 ^ 2,
       2 * R 2 1 * R 2 2, 2 * R 2 2 * R 2 0, 2 * R 2 0 * R 2 1;
     R 1 0 * R 2 0, R 1 1 * R 2 1, R 1 2 * R 2 2,
       R 1 1 * R 2 2 + R 1 2 * R 2 1, R 1 2 * R 2 0 + R 1 0 * R 2 2,
       R 1 0 * R 2 1 + R 1 1 * R 2 0;
     R 2 0 * R 0 0, R 2 1 * R 0 1, R 2 2 * R 0 2,
       R 2 1 * R 0 2 + R 2 2 * R 0 1, R 2 2 * R 0 0 + R 2 0 * R 0 2,
       R 2 0 * R 0 1 + R 2 1 * R 0 0;
     R 0 0 * R 1 0, R 0 1 * R 1 1, R 0 2 * R 1 2,
       R 0 1 * R 1 2 + R 0 2 * R 1 1, R 0 2 * R 1 0 + R 0 0 * R 1 2,
       R 0 0 * R 1 1 + R 0 1 * R 1 0]

/-- Voigt average of the `get_seismic` homogenization loop: the mean over the
orientation ensemble of `M @ C @ M.T` with `M = bond(rotator_zxz(euler))`. -/
def voigt_stiffness (C : Matrix (Fin 6) (Fin 6) ℝ) (euler : List (Fin 3 → ℝ)) :
    Matrix (Fin 6) (Fin 6) ℝ :=
  ((euler.length : ℝ))⁻¹ •
    (euler.map fun e =>
      let M := bond (rotator_zxz e)
      M * C * Mᵀ).sum

/-- Reuss average of the `get_seismic` loop: the inverse of the mean of
`N @ S @ N.T` with `S = inv(C)` and `N = inv(M)`. -/
def reuss_stiffness (C : Matrix (Fin 6) (Fin 6) ℝ) (euler : List (Fin 3 → ℝ)) :
    Matrix (Fin 6) (Fin 6) ℝ :=
  (((euler.length : ℝ))⁻¹ •
    (euler.map fun e =>
      let N := (bond (rotator_zxz e))⁻¹
      N * C⁻¹ * Nᵀ).sum)⁻¹

/-- Hill average `C = (cvoigt + creuss) / 2` of `get_seismic`. -/
def hill_stiffness (C : Matrix (Fin 6) (Fin 6) ℝ) (euler : List (Fin 3 → ℝ)) :
    Matrix (Fin 6) (Fin 6) ℝ :=
  (2 : ℝ)⁻¹ • (voigt_stiffness C euler + reuss_stiffness C euler)

/-- Voigt average of the `get_perm` loop for a 2nd-rank (3x3) tensor: the mean
of `R @ P @ R.T`. -/
def voigt_perm (P : Matrix (Fin 3) (Fin 3) ℝ) (euler : List (Fin 3 → ℝ)) :
    Matrix (Fin 3) (Fin 3) ℝ :=
  ((euler.length : ℝ))⁻¹ •
    (euler.map fun e =>
      let R := rotator_zxz e
      R * P * Rᵀ).sum

/-- Reuss average of the `get_perm` loop: inverse of the mean of
`Ri @ inv(P) @ Ri.T` with `Ri = inv(R)`. -/
def reuss_perm (P : Matrix (Fin 3) (Fin 3) ℝ) (euler : List (Fin 3 → ℝ)) :
    Matrix (Fin 3) (Fin 3) ℝ :=
  (((euler.length : ℝ))⁻¹ •
    (euler.map fun e =>
      let Ri := (rotator_zxz e)⁻¹
      Ri * P⁻¹ * Riᵀ).sum)⁻¹

/-- Hill average `(pvoigt + preuss) / 2` of `get_perm`. -/
def hill_perm (P : Matrix (Fin 3) (Fin 3) ℝ) (euler : List (Fin 3 → ℝ)) :
    Matrix (Fin 3) (Fin 3) ℝ :=
  (2 : ℝ)⁻¹ • (voigt_perm P euler + reuss_perm P euler)

/-- High-frequency stability condition values (`highfreq_stability_conditions`)
on a 6x6 tensor: the triple `(cond1, cond2, cond3)` of the source. -/
def highfreq_stability_conditions (T : Matrix (Fin 6) (Fin 6) ℝ) : ℝ × ℝ × ℝ :=
  (((T 0 1 + T 2 2) ^ 2 - T 0 0 * (T 1 1 - T 2 2)) *
     ((T 0 1 + T 2 2) ^ 2 + T 2 2 * (T 1 1 - T 2 2)),
   (T 0 1 + 2 * T 2 2) ^ 2 - T 0 0 * T 1 1,
   (T 0 1 + T 2 2) ^ 2 - T 0 0 * T 2 2 - T 2 2 ^ 2)

/-- The source prints a condition-1 failure exactly when `cond1 > 0`. -/
def fails_condition1 (T : Matrix (Fin 6) (Fin 6) ℝ) : Prop :=
  0 < (highfreq_stability_conditions T).1

/-- The source prints a condition-2 failure exactly when `cond2 > 0`. -/
def fails_condition2 (T : Matrix (Fin 6) (Fin 6) ℝ) : Prop :=
  0 < (highfreq_stability_conditions T).2.1

/-- The source prints a condition-3 failure exactly when `cond3 > 0`. -/
def fails_condition3 (T : Matrix (Fin 6) (Fin 6) ℝ) : Prop :=
  0 < (highfreq_stability_conditions T).2.2

/-- Round-half-to-even (`np.round` with `decimals = 0`). -/
def np_round (x : ℝ) : ℝ :=
  if x - ⌊x⌋ < 1 / 2 then ((⌊x⌋ : ℤ) : ℝ)
  else if (1 / 2 : ℝ) < x - ⌊x⌋ then ((⌊x⌋ + 1 : ℤ) : ℝ)
  else if 2 ∣ ⌊x⌋ then ((⌊x⌋ : ℤ) : ℝ) else ((⌊x⌋ + 1 : ℤ) : ℝ)

/-- The record packed at the end of `get_seismic`: `C = np.round(C)` followed
by the 21 upper-triangular entries in fixed row-major order and the corrected
density as the 22nd value. -/
def stiffness_record (C : Matrix (Fin 6) (Fin 6) ℝ) (density : ℝ) : Fin 22 → ℝ :=
  let Cr := Matrix.of fun i j => np_round (C i j)
  ![Cr 0 0, Cr 0 1, Cr 0 2, Cr 0 3, Cr 0 4, Cr 0 5,
    Cr 1 1, Cr 1 2, Cr 1 3, Cr 1 4, Cr 1 5,
    Cr 2 2, Cr 2 3, Cr 2 4, Cr 2 5,
    Cr 3 3, Cr 3 4, Cr 3 5,
    Cr 4 4, Cr 4 5,
    Cr 5 5,
    density]

/-!
Helper lemmas shared by the claim theorems below.
-/

/-- Evaluation of vector notation at index 5 (the library stops at 4). -/
theorem cons_val_five (x : α) (u : Fin (m + 5) → α) :
    vecCons x u 5 = vecHead (vecTail (vecTail (vecTail (vecTail u)))) :=
  rfl

/-- Evaluation of vector notation at index 6. -/
theorem cons_val_six (x : α) (u : Fin (m + 6) → α) :
    vecCons x u 6 = vecHead (vecTail (vecTail (vecTail (vecTail (vecTail u))))) :=
  rfl

/-- Evaluation of vector notation at index 7. -/
theorem cons_val_seven (x : α) (u : Fin (m + 7) → α) :
    vecCons x u 7 = vecHead (vecTail (vecTail (vecTail (vecTail (vecTail (vecTail u)))))) :=
  rfl

/-- The rotation matrix of the zero Euler-angle triple is the identity. -/
theorem rotator_zxz_zero : rotator_zxz ![0, 0, 0] = 1 := by
  ext i j
  fin_cases i <;> fin_cases j <;>
    simp [rotator_zxz, Matrix.mul_apply, Fin.sum_univ_three, Matrix.one_apply,
      Matrix.vecHead, Matrix.vecTail]

/-- The Bond matrix of the identity rotation is the identity. -/
theorem bond_one : bond 1 = 1 := by
  ext i j
  fin_cases i <;> fin_cases j <;>
    simp [bond, Matrix.one_apply, cons_val_five, Matrix.vecHead, Matrix.vecTail]

/-- A sum of symmetric matrices over a list is symmetric. -/
theorem sum_map_isSymm {α : Type*} {n : ℕ} (l : List α) (g : α → Matrix (Fin n) (Fin n) ℝ)
    (h : ∀ e, (g e)ᵀ = g e) : ((l.map g).sum)ᵀ = (l.map g).sum := by
  induction l with
  | nil => simp
  | cons a t ih => simp [Matrix.transpose_add, h, ih]

/-- Value of `np_round` is always an integer. -/
theorem np_round_int (x : ℝ) : ∃ k : ℤ, np_round x = (k : ℝ) := by
  unfold np_round
  split
  · exact ⟨⌊x⌋, rfl⟩
  · split
    · exact ⟨⌊x⌋ + 1, rfl⟩
    · split
      · exact ⟨⌊x⌋, rfl⟩
      · exact ⟨⌊x⌋ + 1, rfl⟩

/-- The isotropic stiffness tensor built from Lame parameters
`lambda = mu = 1` (density 1, zero pressure, catalog minima `Vp = sqrt 3`,
`Vs = 1`). -/
theorem iso_unit_lame_eval :
    isotropic_stiffness_tensor 0 1 ![Real.sqrt 3, 0, 1, 0, 0, 0, 0, 0] =
      !![3, 1, 1, 0, 0, 0;
         1, 3, 1, 0, 0, 0;
         1, 1, 3, 0, 0, 0;
         0, 0, 0, 1, 0, 0;
         0, 0, 0, 0, 1, 0;
         0, 0, 0, 0, 0, 1] := by
  have h3 : Real.sqrt 3 ^ 2 = 3 := Real.sq_sqrt (by norm_num)
  ext i j
  fin_cases i <;> fin_cases j <;>
    simp [isotropic_stiffness_tensor, lame_lambda, lame_mu, pwave_velocity,
      swave_velocity, Real.arctan_zero, cons_val_five, Matrix.vecHead, Matrix.vecTail] <;>
    nlinarith [h3]

/-!
The claim theorems.
-/

/-- Claim C1: homogenizing a single-crystal tensor over the degenerate
ensemble of exactly one zero-Euler-angle triple (identity rotation) returns
the tensor unchanged: in `get_seismic` (6x6 stiffness, Bond transform) and in
`get_perm` (3x3 tensor, plain rotation) the Voigt, Reuss and Hill averages all
equal the input tensor.  The `IsUnit det` hypotheses record that the source
inverts the tensor (`np.linalg.inv`), which requires nonsingularity. -/
theorem C1_identity_homogenization (C : Matrix (Fin 6) (Fin 6) ℝ)
    (P : Matrix (Fin 3) (Fin 3) ℝ) (hC : IsUnit C.det) (hP : IsUnit P.det) :
    voigt_stiffness C [![0, 0, 0]] = C ∧ reuss_stiffness C [![0, 0, 0]] = C ∧
      hill_stiffness C [![0, 0, 0]] = C ∧
      voigt_perm P [![0, 0, 0]] = P ∧ reuss_perm P [![0, 0, 0]] = P ∧
      hill_perm P [![0, 0, 0]] = P := by
  have hv : voigt_stiffness C [![0, 0, 0]] = C := by
    simp [voigt_stiffness, rotator_zxz_zero, bond_one]
  have hr : reuss_stiffness C [![0, 0, 0]] = C := by
    simp [reuss_stiffness, rotator_zxz_zero, bond_one, inv_one,
      Matrix.nonsing_inv_nonsing_inv C hC]
  have hpv : voigt_perm P [![0, 0, 0]] = P := by
    simp [voigt_perm, rotator_zxz_zero]
  have hpr : reuss_perm P [![0, 0, 0]] = P := by
    simp [reuss_perm, rotator_zxz_zero, inv_one, Matrix.nonsing_inv_nonsing_inv P hP]
  refine ⟨hv, hr, ?_, hpv, hpr, ?_⟩
  · rw [hill_stiffness, hv, hr, ← two_smul ℝ C, smul_smul]
    norm_num
  · rw [hill_perm, hpv, hpr, ← two_smul ℝ P, smul_smul]
    norm_num

/-- Claim C1 witness: the identity tensors are nonsingular, and all six
averages evaluate to them on the singleton identity ensemble. -/
theorem C1_identity_homogenization_witness :
    voigt_stiffness 1 [![0, 0, 0]] = 1 ∧ reuss_stiffness 1 [![0, 0, 0]] = 1 ∧
      hill_stiffness 1 [![0, 0, 0]] = 1 ∧
      voigt_perm 1 [![0, 0, 0]] = 1 ∧ reuss_perm 1 [![0, 0, 0]] = 1 ∧
      hill_perm 1 [![0, 0, 0]] = 1 :=
  C1_identity_homogenization 1 1 (by simp) (by simp)

/-- Claim C2: for every temperature and pressure the `ice_stiffness` tensor
satisfies the hexagonal-symmetry relations `c22 = c11`, `c23 = c13` (and the
source's `C[2,1] = C[0,2]` assignment), `c21 = c12`, `c55 = c44`,
`c66 = (c11 - c12)/2`, and the five independent entries are the quadratic
polynomials scaled by `1e8`. -/
theorem C2_ice_stiffness_hexagonal (t p : ℝ) :
    ice_stiffness t p 1 1 = ice_stiffness t p 0 0 ∧
    ice_stiffness t p 1 2 = ice_stiffness t p 0 2 ∧
    ice_stiffness t p 2 1 = ice_stiffness t p 0 2 ∧
    ice_stiffness t p 1 0 = ice_stiffness t p 0 1 ∧
    ice_stiffness t p 4 4 = ice_stiffness t p 3 3 ∧
    ice_stiffness t p 5 5 = (ice_stiffness t p 0 0 - ice_stiffness t p 0 1) / 2 ∧
    ice_stiffness t p 0 0 = 1e8 * ice_c11 t p ∧
    ice_stiffness t p 0 1 = 1e8 * ice_c12 t p ∧
    ice_stiffness t p 0 2 = 1e8 * ice_c13 t p ∧
    ice_stiffness t p 2 2 = 1e8 * ice_c33 t p ∧
    ice_stiffness t p 3 3 = 1e8 * ice_c44 t p := by
  refine ⟨?_, ?_, ?_, ?_, ?_, ?_, ?_, ?_, ?_, ?_, ?_⟩ <;>
    simp [ice_stiffness, cons_val_five, Matrix.vecHead, Matrix.vecTail] <;> try ring

/-- Claim C3 counterexample: on the isotropic stiffness tensor built from
Lame parameters `lambda = mu = 1` the checker DOES report a condition-2
failure (`cond2 = (1 + 2*3)^2 - 3*3 = 40 > 0`), so the claim that it reports
no violation of any condition there is false. -/
theorem C3_counterexample_condition2_fires :
    fails_condition2 (isotropic_stiffness_tensor 0 1 ![Real.sqrt 3, 0, 1, 0, 0, 0, 0, 0]) := by
  rw [fails_condition2, iso_unit_lame_eval]
  norm_num [highfreq_stability_conditions]

/-- Claim C3 amended: `highfreq_stability_conditions` reports a condition-2
failure exactly when `(c01 + 2*c22)^2 - c00*c11 > 0`; on the isotropic
stiffness tensor built from `lambda = mu = 1` (c00 = c11 = c22 = 3, c01 = 1)
the condition values are `(256, 40, -2)`, so conditions 1 and 2 are reported
as failures while condition 3 is not. -/
theorem C3_amended_stability_conditions :
    (∀ T : Matrix (Fin 6) (Fin 6) ℝ,
        fails_condition2 T ↔ 0 < (T 0 1 + 2 * T 2 2) ^ 2 - T 0 0 * T 1 1) ∧
    highfreq_stability_conditions
        (isotropic_stiffness_tensor 0 1 ![Real.sqrt 3, 0, 1, 0, 0, 0, 0, 0]) =
      (256, 40, -2) ∧
    fails_condition1 (isotropic_stiffness_tensor 0 1 ![Real.sqrt 3, 0, 1, 0, 0, 0, 0, 0]) ∧
    fails_condition2 (isotropic_stiffness_tensor 0 1 ![Real.sqrt 3, 0, 1, 0, 0, 0, 0, 0]) ∧
    ¬ fails_condition3 (isotropic_stiffness_tensor 0 1 ![Real.sqrt 3, 0, 1, 0, 0, 0, 0, 0]) := by
  refine ⟨fun T => Iff.rfl, ?_, ?_, ?_, ?_⟩ <;>
    rw [iso_unit_lame_eval] <;>
    norm_num [fails_condition1, fails_condition2, fails_condition3,
      highfreq_stability_conditions]

/-- Claim C4: `isotropic_stiffness_tensor` interpolates the velocities as
`V = V_min + (2/pi)*(V_max - V_min)*arctan(pressure)` (so both equal the
catalog minima at zero pressure), and the resulting tensor has
`c11 = c22 = c33 = lambda + 2*mu`, all upper-left 3x3 off-diagonal entries
equal to `lambda`, and shear diagonal `c44 = c55 = c66 = mu`, with
`mu = rho*Vs^2` and `lambda = rho*Vp^2 - 2*mu`. -/
theorem C4_isotropic_stiffness_structure (pressure density : ℝ) (lims : Fin 8 → ℝ) :
    pwave_velocity pressure lims =
      lims 0 + 2 / Real.pi * (lims 1 - lims 0) * Real.arctan pressure ∧
    swave_velocity pressure lims =
      lims 2 + 2 / Real.pi * (lims 3 - lims 2) * Real.arctan pressure ∧
    pwave_velocity 0 lims = lims 0 ∧
    swave_velocity 0 lims = lims 2 ∧
    lame_mu pressure density lims = density * swave_velocity pressure lims ^ 2 ∧
    lame_lambda pressure density lims =
      density * pwave_velocity pressure lims ^ 2 - 2 * lame_mu pressure density lims ∧
    (let lam := lame_lambda pressure density lims
     let mu := lame_mu pressure density lims
     let C := isotropic_stiffness_tensor pressure density lims
     C 0 0 = lam + 2 * mu ∧ C 1 1 = lam + 2 * mu ∧ C 2 2 = lam + 2 * mu ∧
     C 0 1 = lam ∧ C 0 2 = lam ∧ C 1 0 = lam ∧ C 1 2 = lam ∧ C 2 0 = lam ∧ C 2 1 = lam ∧
     C 3 3 = mu ∧ C 4 4 = mu ∧ C 5 5 = mu) := by
  refine ⟨by unfold pwave_velocity; ring, by unfold swave_velocity; ring,
    by simp [pwave_velocity], by simp [swave_velocity], rfl, rfl,
    ?_, ?_, ?_, ?_, ?_, ?_, ?_, ?_, ?_, ?_, ?_, ?_⟩ <;>
    simp [isotropic_stiffness_tensor, cons_val_five, Matrix.vecHead, Matrix.vecTail]

/-- Claim C5 counterexample: with a complex permittivity of imaginary part 1
and frequency 1 Hz, the returned conductivity entry is `eps0` (the source
multiplies by the plain frequency `f`), not `1 * (2*pi*1) * eps0` as the
claimed convention `sigma = eps_im * omega * eps0` with `omega = 2*pi*f`
requires. -/
theorem C5_counterexample_omega :
    snow_conductivity none (some (Matrix.of fun _ _ => Complex.I)) 1 ≠
      some (Matrix.of fun i j =>
        (if i = j then (1 : ℝ) else 0) *
          (((Matrix.of fun _ _ => Complex.I : Matrix (Fin 3) (Fin 3) ℂ) i j).im *
            (2 * Real.pi * 1) * eps0)) := by
  intro h
  have h1 := Option.some.inj h
  have h2 := congrFun (congrFun h1 0) 0
  simp [eps0, Complex.I_im] at h2
  nlinarith [Real.pi_gt_three, h2]

/-- Claim C5 amended: for a complex-valued permittivity tensor `P` and center
frequency `f` in Hz, `snow_conductivity` returns the diagonal tensor with
entries `imag(P[i,i]) * f * eps0` — the ordinary frequency `f`, not the
angular frequency `2*pi*f`. -/
theorem C5_amended_conductivity (lwc : Option ℝ) (P : Matrix (Fin 3) (Fin 3) ℂ) (f : ℝ) :
    snow_conductivity lwc (some P) f =
      some (Matrix.diagonal fun i => (P i i).im * f * eps0) := by
  have hdiag : (Matrix.of fun i j =>
        (if i = j then (1 : ℝ) else 0) * ((P i j).im * f * eps0))
      = Matrix.diagonal fun i => (P i i).im * f * eps0 := by
    ext i j
    by_cases hij : i = j
    · subst hij; simp [Matrix.diagonal_apply]
    · simp [Matrix.diagonal_apply, hij]
  rw [show snow_conductivity lwc (some P) f =
      some (Matrix.of fun i j =>
        (if i = j then (1 : ℝ) else 0) * ((P i j).im * f * eps0)) from rfl, hdiag]

/-- Claim C6: evaluating the code at the failing input.  For the catalog name
"dry_sand" at porosity 55, the returned permittivity diagonal is
`2.9 + ((4.7-2.9)/3)*55 = 35.9` — the default 3 percent branch — while the
55 percent slope of the claim would give `2.9 + ((4.7-2.9)/55)*55 = 4.7`.
The conductivity diagonal is `1e-3` (the dry_sand catalog bounds coincide, so
there every slope gives the same value). -/
theorem C6_dry_sand_takes_default_branch :
    (isotropic_permittivity_tensor 0 55 0 "dry_sand").map (fun pc => pc.1 0 0) =
      some 35.9 ∧
    (isotropic_permittivity_tensor 0 55 0 "dry_sand").map (fun pc => pc.2 0 0) =
      some 1.0e-3 ∧
    (35.9 : ℝ) ≠ 2.9 + (4.7 - 2.9) / 55 * 55 := by
  refine ⟨?_, ?_, by norm_num⟩ <;>
    (simp [isotropic_permittivity_tensor, isotropic_materials, eye_mul,
      Matrix.diagonal_apply, cons_val_five, cons_val_six, cons_val_seven,
      Matrix.vecHead, Matrix.vecTail]
     try norm_num)

/-- Claim C7 counterexample: a table with one row and four usable columns is
returned with all four columns (the source's trim condition tests the number
of rows, `shape[0] > 3`, so no trimming happens), not trimmed to exactly 3,
and no format error is raised. -/
theorem C7_counterexample_no_column_trim :
    read_ang [[some 1, some 2, some 3, some 4]] = some [[(1 : ℝ), 2, 3, 4]] ∧
      ([(1 : ℝ), 2, 3, 4]).length ≠ 3 := by
  constructor
  · rfl
  · norm_num

/-- Claim C7 amended: `read_ang` column-trims only when the table has more
than 3 ROWS.  For every rectangular fully-usable table with more than 3 rows
and rows of length `n`, the result is returned without error and every output
row has length `min 3 n`: more than 3 columns are trimmed to exactly 3, and
fewer than 3 columns produce no format error (the narrower array is
returned); with at most 3 rows no trimming occurs at all. -/
theorem C7_amended_row_count_trim (rows : List (List ℝ)) (n : ℕ) (h3 : 3 < rows.length)
    (hrect : ∀ r ∈ rows, r.length = n) :
    ∃ out : List (List ℝ), read_ang (rows.map fun r => r.map some) = some out ∧
      out.length = rows.length ∧ ∀ r ∈ out, r.length = min 3 n := by
  have hlen : (rows.map fun r => r.map some).length = rows.length := List.length_map _ _
  have htab : ((rows.map fun r => r.map some).map fun r => r.take 3)
      = rows.map fun r => (r.take 3).map some := by
    rw [List.map_map]
    refine List.map_congr_left fun r _ => ?_
    simp [List.map_take]
  have hflat : ((rows.map fun r => (r.take 3).map some).flatten.filterMap id)
      = (rows.map fun r => r.take 3).flatten := by
    have h1 : (rows.map fun r => (r.take 3).map some)
        = ((rows.map fun r => r.take 3).map (List.map some)) := by
      rw [List.map_map]; rfl
    rw [h1, ← List.map_flatten, List.filterMap_map]
    simp
  have hfl : ((rows.map fun r => r.take 3).flatten).length = rows.length * min 3 n := by
    rw [List.length_flatten, List.map_map]
    have h2 : (rows.map ((fun r : List ℝ => r.length) ∘ fun r => r.take 3))
        = List.replicate rows.length (min 3 n) := by
      refine List.eq_replicate_iff.mpr ⟨by simp, ?_⟩
      intro b hb
      rcases List.mem_map.mp hb with ⟨r, hr, hrb⟩
      have := hrect r hr
      simp only [Function.comp] at hrb
      rw [List.length_take, this] at hrb
      omega
    rw [h2, List.sum_replicate, smul_eq_mul]
  have hm0 : ¬ (rows.length = 0) := by omega
  have hmpos : 0 < rows.length := by omega
  refine ⟨(List.range rows.length).map fun i =>
      ((((rows.map fun r => r.take 3).flatten).drop (i * min 3 n)).take (min 3 n)),
    ?_, ?_, ?_⟩
  · simp only [read_ang]
    rw [hlen, if_pos h3, htab, hflat, List.length_map, if_neg hm0, hfl,
      Nat.mul_div_cancel_left _ hmpos, if_pos rfl]
  · simp
  · intro r hr
    rcases List.mem_map.mp hr with ⟨i, hi, hir⟩
    have hilt : i < rows.length := List.mem_range.mp hi
    have hlr : r.length =
        min (min 3 n) (((rows.map fun r => r.take 3).flatten).length - i * min 3 n) := by
      rw [← hir, List.length_take, List.length_drop]
    rw [hlr, hfl]
    have hstep : (i + 1) * min 3 n = i * min 3 n + min 3 n := by ring
    have hle : min 3 n ≤ rows.length * min 3 n - i * min 3 n := by
      have h4 : (i + 1) * min 3 n ≤ rows.length * min 3 n := Nat.mul_le_mul_right _ hilt
      omega
    exact min_eq_left hle

/-- Claim C7 witness: a 4-row, 4-column fully usable table is parsed without
error and trimmed to rows of length `min 3 4 = 3`. -/
theorem C7_amended_row_count_trim_witness :
    ∃ out : List (List ℝ),
      read_ang ((([[1, 2, 3, 4], [5, 6, 7, 8], [9, 10, 11, 12], [13, 14, 15, 16]] :
          List (List ℝ))).map fun r => r.map some) = some out ∧
        out.length = (([[1, 2, 3, 4], [5, 6, 7, 8], [9, 10, 11, 12], [13, 14, 15, 16]] :
          List (List ℝ))).length ∧
        ∀ r ∈ out, r.length = min 3 4 :=
  C7_amended_row_count_trim _ 4 (by norm_num)
    (by
      intro r hr
      simp only [List.mem_cons, List.not_mem_nil, or_false] at hr
      rcases hr with rfl | rfl | rfl | rfl <;> rfl)

/-- Claim C8: evaluating the code at the failing input.  Every call of
`snow_conductivity` without a complex permittivity tensor takes the Granlund
branch, which references the undefined names `temperature`, `density` and
`porosity` and therefore raises `NameError` instead of returning a
conductivity tensor (modelled by `none`). -/
theorem C8_lwc_branch_never_returns (lwc : Option ℝ) (frequency : ℝ) :
    snow_conductivity lwc none frequency = none :=
  rfl

/-- Symmetry of the Voigt stiffness average for a symmetric input tensor. -/
theorem voigt_stiffness_isSymm (C : Matrix (Fin 6) (Fin 6) ℝ) (ens : List (Fin 3 → ℝ))
    (hC : C.IsSymm) : (voigt_stiffness C ens).IsSymm := by
  unfold Matrix.IsSymm at *
  unfold voigt_stiffness
  rw [Matrix.transpose_smul]
  congr 1
  exact sum_map_isSymm ens _ fun e => by
    simp [Matrix.transpose_mul, Matrix.transpose_transpose, Matrix.mul_assoc, hC]

/-- Symmetry of the Reuss stiffness average for a symmetric input tensor. -/
theorem reuss_stiffness_isSymm (C : Matrix (Fin 6) (Fin 6) ℝ) (ens : List (Fin 3 → ℝ))
    (hC : C.IsSymm) : (reuss_stiffness C ens).IsSymm := by
  unfold Matrix.IsSymm at *
  unfold reuss_stiffness
  rw [Matrix.transpose_nonsing_inv]
  congr 1
  rw [Matrix.transpose_smul]
  congr 1
  exact sum_map_isSymm ens _ fun e => by
    simp [Matrix.transpose_mul, Matrix.transpose_transpose, Matrix.mul_assoc,
      Matrix.transpose_nonsing_inv, hC]

/-- Symmetry of the Voigt average of a symmetric 3x3 tensor in `get_perm`. -/
theorem voigt_perm_isSymm (P : Matrix (Fin 3) (Fin 3) ℝ) (ens : List (Fin 3 → ℝ))
    (hP : P.IsSymm) : (voigt_perm P ens).IsSymm := by
  unfold Matrix.IsSymm at *
  unfold voigt_perm
  rw [Matrix.transpose_smul]
  congr 1
  exact sum_map_isSymm ens _ fun e => by
    simp [Matrix.transpose_mul, Matrix.transpose_transpose, Matrix.mul_assoc, hP]

/-- Symmetry of the Reuss average of a symmetric 3x3 tensor in `get_perm`. -/
theorem reuss_perm_isSymm (P : Matrix (Fin 3) (Fin 3) ℝ) (ens : List (Fin 3 → ℝ))
    (hP : P.IsSymm) : (reuss_perm P ens).IsSymm := by
  unfold Matrix.IsSymm at *
  unfold reuss_perm
  rw [Matrix.transpose_nonsing_inv]
  congr 1
  rw [Matrix.transpose_smul]
  congr 1
  exact sum_map_isSymm ens _ fun e => by
    simp [Matrix.transpose_mul, Matrix.transpose_transpose, Matrix.mul_assoc,
      Matrix.transpose_nonsing_inv, hP]

/-- Symmetry of the isotropic stiffness tensor. -/
theorem isotropic_stiffness_tensor_isSymm (p ρ : ℝ) (lims : Fin 8 → ℝ) :
    (isotropic_stiffness_tensor p ρ lims).IsSymm := by
  unfold Matrix.IsSymm
  ext i j
  fin_cases i <;> fin_cases j <;>
    simp [isotropic_stiffness_tensor, Matrix.transpose_apply, cons_val_five,
      Matrix.vecHead, Matrix.vecTail]

/-- Symmetry of the single-crystal ice stiffness tensor. -/
theorem ice_stiffness_isSymm (t p : ℝ) : (ice_stiffness t p).IsSymm := by
  unfold Matrix.IsSymm
  ext i j
  fin_cases i <;> fin_cases j <;>
    simp [ice_stiffness, Matrix.transpose_apply, cons_val_five,
      Matrix.vecHead, Matrix.vecTail]

/-- Symmetry of both members of the isotropic permittivity/conductivity pair. -/
theorem isotropic_permittivity_tensor_isSymm (t φ w : ℝ) (name : String)
    (pc : Matrix (Fin 3) (Fin 3) ℝ × Matrix (Fin 3) (Fin 3) ℝ)
    (h : isotropic_permittivity_tensor t φ w name = some pc) :
    pc.1.IsSymm ∧ pc.2.IsSymm := by
  unfold isotropic_permittivity_tensor at h
  cases hm : isotropic_materials name with
  | none => rw [hm] at h; simp at h
  | some lims =>
    rw [hm] at h
    simp only [Option.map_some'] at h
    rw [← Option.some.inj h]
    split_ifs <;> exact ⟨Matrix.isSymm_diagonal _, Matrix.isSymm_diagonal _⟩

/-- Symmetry of the complex ice permittivity tensor. -/
theorem ice_permittivity_isSymm (Ai Bi Ci : ℝ → ℝ) (t ρ f : ℝ) (method : String) :
    (ice_permittivity Ai Bi Ci t ρ f method).IsSymm := by
  unfold Matrix.IsSymm
  ext i j
  by_cases hij : i = j
  · subst hij; rfl
  · simp [ice_permittivity, Matrix.transpose_apply, hij, Ne.symm hij]

/-- Symmetry of the complex snow permittivity tensor. -/
theorem snow_permittivity_isSymm (Ai Bi Ci : ℝ → ℝ) (ρ t l φ f : ℝ) (method : String) :
    (snow_permittivity Ai Bi Ci ρ t l φ f method).1.IsSymm := by
  unfold Matrix.IsSymm
  ext i j
  by_cases hij : i = j
  · subst hij; rfl
  · simp [snow_permittivity, Matrix.transpose_apply, hij, Ne.symm hij]

/-- Claim C9: every tensor the core produces is symmetric — the outputs of
`isotropic_stiffness_tensor`, `ice_stiffness`, `isotropic_permittivity_tensor`
(both members of the returned pair), `ice_permittivity`, `snow_permittivity`,
and the homogenized Voigt, Reuss and Hill averages of symmetric input tensors,
both the 6x6 stiffness versions of `get_seismic` and the 3x3 versions of
`get_perm`. -/
theorem C9_all_outputs_symmetric :
    (∀ p ρ lims, (isotropic_stiffness_tensor p ρ lims).IsSymm) ∧
    (∀ t p, (ice_stiffness t p).IsSymm) ∧
    (∀ t φ w name pc, isotropic_permittivity_tensor t φ w name = some pc →
        pc.1.IsSymm ∧ pc.2.IsSymm) ∧
    (∀ Ai Bi Ci t ρ f method, (ice_permittivity Ai Bi Ci t ρ f method).IsSymm) ∧
    (∀ Ai Bi Ci ρ t l φ f method,
        (snow_permittivity Ai Bi Ci ρ t l φ f method).1.IsSymm) ∧
    (∀ (C : Matrix (Fin 6) (Fin 6) ℝ) ens, C.IsSymm →
        (voigt_stiffness C ens).IsSymm ∧ (reuss_stiffness C ens).IsSymm ∧
          (hill_stiffness C ens).IsSymm) ∧
    (∀ (P : Matrix (Fin 3) (Fin 3) ℝ) ens, P.IsSymm →
        (voigt_perm P ens).IsSymm ∧ (reuss_perm P ens).IsSymm ∧
          (hill_perm P ens).IsSymm) := by
  refine ⟨isotropic_stiffness_tensor_isSymm, ice_stiffness_isSymm,
    isotropic_permittivity_tensor_isSymm, ice_permittivity_isSymm,
    snow_permittivity_isSymm, ?_, ?_⟩
  · intro C ens hC
    refine ⟨voigt_stiffness_isSymm C ens hC, reuss_stiffness_isSymm C ens hC, ?_⟩
    exact ((voigt_stiffness_isSymm C ens hC).add (reuss_stiffness_isSymm C ens hC)).smul _
  · intro P ens hP
    refine ⟨voigt_perm_isSymm P ens hP, reuss_perm_isSymm P ens hP, ?_⟩
    exact ((voigt_perm_isSymm P ens hP).add (reuss_perm_isSymm P ens hP)).smul _

/-- Claim C9 witness: the hypothesis-carrying parts instantiated — the
identity stiffness and permittivity tensors are symmetric, and so are all six
homogenized averages on the singleton identity ensemble; the catalog lookup
for "air" yields a symmetric permittivity/conductivity pair. -/
theorem C9_all_outputs_symmetric_witness :
    ((voigt_stiffness 1 [![0, 0, 0]]).IsSymm ∧ (reuss_stiffness 1 [![0, 0, 0]]).IsSymm ∧
      (hill_stiffness 1 [![0, 0, 0]]).IsSymm) ∧
    ((voigt_perm 1 [![0, 0, 0]]).IsSymm ∧ (reuss_perm 1 [![0, 0, 0]]).IsSymm ∧
      (hill_perm 1 [![0, 0, 0]]).IsSymm) ∧
    ((eye_mul ((1.0 - 1.0) / 3 * 0 + 1.0),
        eye_mul ((1.0e-15 - 1.0e-16) / 3 * 0 + 1.0e-16)).1.IsSymm ∧
      (eye_mul ((1.0 - 1.0) / 3 * 0 + 1.0),
        eye_mul ((1.0e-15 - 1.0e-16) / 3 * 0 + 1.0e-16)).2.IsSymm) :=
  ⟨C9_all_outputs_symmetric.2.2.2.2.2.1 1 [![0, 0, 0]] Matrix.isSymm_one,
   C9_all_outputs_symmetric.2.2.2.2.2.2 1 [![0, 0, 0]] Matrix.isSymm_one,
   C9_all_outputs_symmetric.2.2.1 0 0 0 "air"
     (eye_mul ((1.0 - 1.0) / 3 * 0 + 1.0),
      eye_mul ((1.0e-15 - 1.0e-16) / 3 * 0 + 1.0e-16)) rfl⟩

/-- Claim C10: `get_seismic` rounds every stiffness entry with `np.round`
before packing, so each of the 21 packed stiffness values is an integer, while
the corrected density stored as the 22nd value is passed through unrounded. -/
theorem C10_record_rounding (C : Matrix (Fin 6) (Fin 6) ℝ) (density : ℝ) :
    (∀ i : Fin 21, ∃ k : ℤ,
        stiffness_record C density (Fin.castLE (by norm_num) i) = (k : ℝ)) ∧
      stiffness_record C density 21 = density := by
  constructor
  · intro i
    fin_cases i <;> exact np_round_int _
  · rfl

end
